import Mathlib

/-!
Verification of the EnvMesh connection/role-management core against its
specification. The Rust sources under src/src-tauri/src are shallowly
embedded: the SQLite table of `EnvStorage` (storage.rs) becomes a list of
rows, wall-clock sampling becomes an explicit `now` argument, network and
election outcomes become explicit environment values, and fallible
operations return `Except`.
-/

namespace EnvMesh

/-! ## Store (storage.rs)

The table `env_vars (key TEXT PRIMARY KEY, value, timestamp INTEGER,
machine_id, deleted INTEGER)` is modelled as a list of rows; `key` being
the primary key, a well-formed table has at most one row per key. Queries
that the SQL engine sorts are modelled with `List.insertionSort`. -/

structure Row where
  key : String
  value : String
  timestamp : Int
  machineId : String
  deleted : Bool
deriving DecidableEq

/-- ChangeRecord from storage.rs: (key, value, timestamp, machine_id, deleted). -/
abbrev ChangeRecord := String × String × Int × String × Bool

/-- SELECT value, timestamp, machine_id FROM env_vars WHERE key = ? AND deleted = 0. -/
def EnvStorage.get (tbl : List Row) (key : String) : Option (String × Int × String) :=
  (tbl.find? fun r => r.key == key && r.deleted == false).map
    fun r => (r.value, r.timestamp, r.machineId)

/-- INSERT OR REPLACE INTO env_vars VALUES (?, ?, ?, ?, 0), with
timestamp = Utc::now().timestamp() passed explicitly as `now`. -/
def EnvStorage.set (tbl : List Row) (key value machineId : String) (now : Int) : List Row :=
  (tbl.filter fun r => r.key != key) ++ [⟨key, value, now, machineId, false⟩]

/-- UPDATE env_vars SET deleted = 1, timestamp = ? WHERE key = ?.
The Rust function also takes a machine_id argument but ignores it
(parameter `_machine_id`); when no row has the key, zero rows are
affected. `now` is the sampled Utc::now().timestamp(). -/
def EnvStorage.delete (tbl : List Row) (key : String) (now : Int) : List Row :=
  tbl.map fun r => if r.key == key then { r with deleted := true, timestamp := now } else r

/-- Ordering of rows by key, for ORDER BY key. -/
def rowKeyLE (a b : Row) : Prop := a.key ≤ b.key

/-- Ordering of rows by timestamp, for ORDER BY timestamp. -/
def rowTsLE (a b : Row) : Prop := a.timestamp ≤ b.timestamp

instance : DecidableRel rowKeyLE := fun a b => inferInstanceAs (Decidable (a.key ≤ b.key))

instance : DecidableRel rowTsLE := fun a b => inferInstanceAs (Decidable (a.timestamp ≤ b.timestamp))

instance : IsTotal Row rowTsLE := ⟨fun a b => le_total a.timestamp b.timestamp⟩

instance : IsTrans Row rowTsLE := ⟨fun _ _ _ h h2 => le_trans h h2⟩

/-- SELECT key, value, timestamp, machine_id FROM env_vars WHERE deleted = 0 ORDER BY key. -/
def EnvStorage.list_all (tbl : List Row) : List (String × String × Int × String) :=
  (List.insertionSort rowKeyLE (tbl.filter fun r => r.deleted == false)).map
    fun r => (r.key, r.value, r.timestamp, r.machineId)

/-- SELECT key, value, timestamp, machine_id, deleted FROM env_vars
WHERE timestamp > ? ORDER BY timestamp. -/
def EnvStorage.get_changes_since (tbl : List Row) (t : Int) : List ChangeRecord :=
  (List.insertionSort rowTsLE (tbl.filter fun r => decide (t < r.timestamp))).map
    fun r => (r.key, r.value, r.timestamp, r.machineId, r.deleted)

/-! ## SyncMessage (client.rs) -/

structure SyncMessage where
  key : String
  value : String
  timestamp : Int
  machine_id : String
  deleted : Bool
deriving DecidableEq

/-- The spec conflict order: the incoming pair (t₂, o₂) is strictly greater
than the stored pair (t₁, o₁) under the lexicographic order with origin as
tiebreak. -/
def lwwLt (t₁ : Int) (o₁ : String) (t₂ : Int) (o₂ : String) : Prop :=
  t₁ < t₂ ∨ (t₁ = t₂ ∧ o₁ < o₂)

instance (t₁ : Int) (o₁ : String) (t₂ : Int) (o₂ : String) : Decidable (lwwLt t₁ o₁ t₂ o₂) :=
  inferInstanceAs (Decidable (_ ∨ _))

/-- Modelled from the spec: the Store operation `apply_remote(msg)` of
§4.1 with the conflict rule of §3. `EnvStorage` in
src/src-tauri/src/storage.rs has no such method and no code in the
repository applies a received `SyncMessage` to the store, so the
operation is taken from the words of the spec: the incoming message
replaces the local row iff its (timestamp, origin) is strictly greater
under the lexicographic order, and is a no-op otherwise; a message for an
absent key is inserted. -/
def EnvStorage.apply_remote (tbl : List Row) (msg : SyncMessage) : List Row :=
  match tbl.find? (fun r => r.key == msg.key) with
  | none => tbl ++ [⟨msg.key, msg.value, msg.timestamp, msg.machine_id, msg.deleted⟩]
  | some r =>
    if lwwLt r.timestamp r.machineId msg.timestamp msg.machine_id then
      tbl.map fun q =>
        if q.key == msg.key then ⟨msg.key, msg.value, msg.timestamp, msg.machine_id, msg.deleted⟩
        else q
    else tbl

/-! ## Helper lemmas -/

/-- find? over a map whose function preserves the predicate. -/
theorem find?_map_pres {α : Type} (p : α → Bool) (g : α → α)
    (h : ∀ x, p (g x) = p x) (l : List α) :
    (l.map g).find? p = (l.find? p).map g := by
  induction l with
  | nil => rfl
  | cons a l ih =>
    simp only [List.map_cons, List.find?]
    rw [h a]
    cases hpa : p a
    · simpa using ih
    · rfl

theorem foldl_max_lt_iff {α : Type} [LinearOrder α] (cs : List α) (c a : α) :
    cs.foldl max c < a ↔ c < a ∧ ∀ x ∈ cs, x < a := by
  induction cs generalizing c with
  | nil => simp
  | cons d ds ih =>
    simp only [List.foldl_cons, ih, max_lt_iff, List.mem_cons]
    constructor
    · rintro ⟨⟨h1, h2⟩, h3⟩
      exact ⟨h1, fun x hx => by rcases hx with rfl | hx; exact h2; exact h3 x hx⟩
    · rintro ⟨h1, h2⟩
      exact ⟨⟨h1, h2 d (Or.inl rfl)⟩, fun x hx => h2 x (Or.inr hx)⟩

/-! ## Election (election.rs)

`should_become_server` announces candidacy, waits, collects the candidate
peer ids and wins iff the collected list is empty or its maximum compares
below this node's id. The waiting and the mDNS substrate are environment;
the decision on a collected candidate list is embedded. Rust `String`
ordering is bytewise lexicographic on UTF-8, which coincides with the
code-point lexicographic order of Lean strings. -/

/-- Rust `candidates.iter().max()`: none for an empty list. -/
def listMax? (l : List String) : Option String :=
  match l with
  | [] => none
  | c :: cs => some (cs.foldl max c)

/-- The decision of Election::should_become_server on the collected
candidate list: empty list wins; otherwise win iff max < my id. -/
def Election.should_become_server (myPeerId : String) (candidates : List String) : Bool :=
  match listMax? candidates with
  | none => true
  | some m => decide (m < myPeerId)

/-! ## Node supervisor (node.rs)

`EnvMeshNode::reconnect_with_failover` is embedded as a function of the
node state and an explicit environment: one `RoundEnv` per attempt round
records the outcome of each network interaction of that round (cloud
connect, LAN discovery, LAN connect, election, server start, announce).
The wire client is modelled by the url it connected to, the embedded
server by its bound port. The Rust recursion after a lost election
consumes the next round; the rounds list is the retry budget, and an
exhausted budget is an error (the Rust code would keep retrying). Besides
the result, the embedding emits the trace of network actions performed. -/

inductive ServerMode
  | auto
  | serverPreferred
  | clientOnly
deriving DecidableEq

inductive NodeMode
  | cloudClient
  | lanClient (server_addr : String)
  | lanServer (port : Nat)
deriving DecidableEq

structure NodeConfig where
  cloud_url : String
  lan_port : Nat
  listen_addr : String
  enable_cloud : Bool
  enable_lan : Bool
  server_mode : ServerMode
deriving DecidableEq

/-- NodeConfig::default() from node.rs. -/
def NodeConfig.default : NodeConfig :=
  ⟨"ws://localhost:8080", 8765, "127.0.0.1", true, true, ServerMode.auto⟩

structure EnvMeshNode where
  mode : NodeMode
  client : Option String
  server : Option Nat
  config : NodeConfig
  peer_id : String
deriving DecidableEq

structure ServerInfo where
  address : String
  port : Nat
deriving DecidableEq

/-- Environment of one round of reconnect_with_failover. `cloud_ok` is
whether WebSocketClient::connect(cloud_url) completed within the 3 s
timeout (connect error and timeout fall through identically);
`discovery` is the result of discover_lan_server within the 2 s timeout
(error and timeout collapse to none, which the code treats the same as
Ok(None)); `lan_connect_ok` is the connect attempt to a discovered
server; `election` is should_become_server; `server_start` is
EmbeddedServer::start, yielding the actually bound port; `announce` is
announce_as_server. -/
structure RoundEnv where
  cloud_ok : Bool
  discovery : Option ServerInfo
  lan_connect_ok : Bool
  election : Except String Bool
  server_start : Except String Nat
  announce : Except String Unit

/-- The network actions a run of reconnect_with_failover performs. -/
inductive NetEvent
  | cloudAttempt
  | lanDiscovery
  | lanConnect
  | electionRun
  | serverStart
  | announce
  | sleepRetry
deriving DecidableEq

/-- Step 3 of reconnect_with_failover: become the LAN server if allowed,
or retry after a lost election. `next` is the value of the retry (the
recursive call on the remaining rounds), used only in the lost-election
branch. -/
def become_server_or_retry (node : EnvMeshNode) (env : RoundEnv)
    (next : Except String EnvMeshNode × List NetEvent) (trace : List NetEvent) :
    Except String EnvMeshNode × List NetEvent :=
  if node.config.server_mode = ServerMode.clientOnly then
    (Except.error "No server available and server_mode is ClientOnly", trace)
  else
    let decided : Except String Bool × List NetEvent :=
      if node.config.server_mode = ServerMode.serverPreferred then (Except.ok true, trace)
      else (env.election, trace ++ [NetEvent.electionRun])
    match decided with
    | (Except.error e, tr) => (Except.error ("Election failed: " ++ e), tr)
    | (Except.ok true, tr) =>
      match env.server_start with
      | Except.error e => (Except.error e, tr ++ [NetEvent.serverStart])
      | Except.ok port =>
        match env.announce with
        | Except.error e => (Except.error e, tr ++ [NetEvent.serverStart, NetEvent.announce])
        | Except.ok _ =>
          (Except.ok { node with mode := NodeMode.lanServer port,
                                 server := some port, client := none },
           tr ++ [NetEvent.serverStart, NetEvent.announce])
    | (Except.ok false, tr) => (next.1, tr ++ [NetEvent.sleepRetry] ++ next.2)

/-- EnvMeshNode::reconnect_with_failover (node.rs, lines 88-201). -/
def reconnect_with_failover (node : EnvMeshNode) :
    List RoundEnv → Except String EnvMeshNode × List NetEvent
  | [] => (Except.error "retry budget exhausted", [])
  | env :: rest =>
    let cloudTrace : List NetEvent :=
      if node.config.enable_cloud then [NetEvent.cloudAttempt] else []
    if node.config.enable_cloud && env.cloud_ok then
      (Except.ok { node with mode := NodeMode.cloudClient,
                             client := some node.config.cloud_url, server := none },
       cloudTrace)
    else if node.config.enable_lan then
      match env.discovery with
      | some info =>
        let lan_url := "ws://" ++ info.address ++ ":" ++ toString info.port
        if env.lan_connect_ok then
          (Except.ok { node with mode := NodeMode.lanClient lan_url,
                                 client := some lan_url, server := none },
           cloudTrace ++ [NetEvent.lanDiscovery, NetEvent.lanConnect])
        else
          become_server_or_retry node env (reconnect_with_failover node rest)
            (cloudTrace ++ [NetEvent.lanDiscovery, NetEvent.lanConnect])
      | none =>
        become_server_or_retry node env (reconnect_with_failover node rest)
          (cloudTrace ++ [NetEvent.lanDiscovery])
    else
      (Except.error "Failed to connect to any server and LAN mode is disabled", cloudTrace)

/-- EnvMeshNode::get_peers (node.rs). -/
def EnvMeshNode.get_peers (n : EnvMeshNode) : List (String × String) :=
  match n.mode with
  | NodeMode.cloudClient => [("cloud", n.config.cloud_url)]
  | NodeMode.lanClient addr => [("lan-server", addr)]
  | NodeMode.lanServer port => [("self", "LAN Server on port " ++ toString port)]

/-- The role/resource correspondence of the spec: client non-null exactly
in the client modes, server non-null exactly in the server mode. -/
def roleOk (n : EnvMeshNode) : Prop :=
  (n.client.isSome = true ∧ n.server = none
      ↔ n.mode = NodeMode.cloudClient ∨ ∃ a, n.mode = NodeMode.lanClient a)
  ∧ (n.server.isSome = true ∧ n.client = none ↔ ∃ p, n.mode = NodeMode.lanServer p)

/-! ## Embedded server (server.rs)

EmbeddedServer::broadcast serializes the message once, then walks the
connection vector with an index: a successful send advances the index, a
failed send removes the connection in place. A connection is modelled by
an identifier together with the outcome its send would have during this
broadcast; serialization is modelled by its outcome. -/

structure WsConn where
  id : Nat
  send_ok : Bool
deriving DecidableEq

/-- The while loop of broadcast: every connection is attempted once in
order; failures are removed in place, successes stay. Returns the
connection vector as it stands after the loop. -/
def EmbeddedServer.broadcastLoop : List WsConn → List WsConn
  | [] => []
  | c :: rest =>
    if c.send_ok then c :: EmbeddedServer.broadcastLoop rest
    else EmbeddedServer.broadcastLoop rest

/-- EmbeddedServer::broadcast: `serde_json::to_string(msg)?` then the send
loop; the Ok payload is the connection list left after fan-out. -/
def EmbeddedServer.broadcast (serialize_ok : Bool) (conns : List WsConn) :
    Except String (List WsConn) :=
  if serialize_ok then Except.ok (EmbeddedServer.broadcastLoop conns)
  else Except.error "serialization failed"

/-! ## Wire client receive (client.rs)

WebSocketClient::receive takes the next frame off the stream. A Text
frame is parsed with `serde_json::from_str(&text)?`: a parse failure
propagates as the error of this call (the frame is consumed, the stream
itself stays open). A Close frame or an exhausted stream yields Ok(None);
a transport error yields Err; any other frame yields Ok(None). An inbound
Text frame is modelled by its serde parse outcome. -/

inductive Frame
  | text (parsed : Except String SyncMessage)
  | close
  | wsError (e : String)
  | other

/-- WebSocketClient::receive over the stream of pending frames; returns
the result and the rest of the stream. -/
def WebSocketClient.receive : List Frame → Except String (Option SyncMessage) × List Frame
  | [] => (Except.ok none, [])
  | Frame.text (Except.ok msg) :: rest => (Except.ok (some msg), rest)
  | Frame.text (Except.error e) :: rest => (Except.error e, rest)
  | Frame.close :: rest => (Except.ok none, rest)
  | Frame.wsError e :: rest => (Except.error ("WebSocket error: " ++ e), rest)
  | Frame.other :: rest => (Except.ok none, rest)

/-! ## Daemon IPC surface (bin/daemon.rs)

handle_connection reads newline-delimited requests; a line that fails to
parse as a Command is answered with Response::Error("Invalid command: e")
and the loop continues with the next line. A line is modelled by its
serde parse outcome. handle_command runs the parsed command against the
daemon state; Shutdown calls std::process::exit(0), modelled as ending
the response stream. -/

inductive Command
  | get (key : String)
  | set (key value : String)
  | delete (key : String)
  | list
  | peers
  | sync
  | shutdown

inductive Response
  | value (v : Option String)
  | success
  | error (msg : String)
  | list (xs : List (String × String))
  | peers (xs : List (String × String))
deriving DecidableEq

structure DaemonState where
  storage : List Row
  node : EnvMeshNode
  machine_id : String

/-- handle_command (bin/daemon.rs); `now` is the Utc::now().timestamp()
the storage layer samples inside set and delete. Shutdown is handled by
the caller. -/
def handle_command (now : Int) (cmd : Command) (st : DaemonState) : Response × DaemonState :=
  match cmd with
  | Command.get key =>
    match EnvStorage.get st.storage key with
    | some (v, _, _) => (Response.value (some v), st)
    | none => (Response.value none, st)
  | Command.set k v =>
    (Response.success, { st with storage := EnvStorage.set st.storage k v st.machine_id now })
  | Command.delete k =>
    (Response.success, { st with storage := EnvStorage.delete st.storage k now })
  | Command.list =>
    (Response.list ((EnvStorage.list_all st.storage).map fun x => (x.1, x.2.1)), st)
  | Command.peers => (Response.peers st.node.get_peers, st)
  | Command.sync => (Response.success, st)
  | Command.shutdown => (Response.success, st)

/-- handle_connection (bin/daemon.rs): one response per inbound line; a
parse failure answers Error and continues; Shutdown exits the process. -/
def handle_connection (now : Int) :
    List (Except String Command) → DaemonState → List Response
  | [], _ => []
  | Except.error e :: rest, st =>
    Response.error ("Invalid command: " ++ e) :: handle_connection now rest st
  | Except.ok Command.shutdown :: _, _ => []
  | Except.ok cmd :: rest, st =>
    let out := handle_command now cmd st
    out.1 :: handle_connection now rest out.2

/-! ## SyncMessage serialization (client.rs)

The derived serde round trip is modelled at the level of the serde_json
data model: a JSON value tree. Serialize emits the object with the five
fields; Deserialize reads the five fields back by name, requiring each to
have the declared type. -/

inductive Json
  | str (s : String)
  | num (n : Int)
  | bool (b : Bool)
  | arr (xs : List Json)
  | obj (fields : List (String × Json))
  | null

/-- Field lookup in a JSON object. -/
def Json.getField : Json → String → Option Json
  | Json.obj fields, name => fields.lookup name
  | _, _ => none

/-- The derived Serialize impl of SyncMessage. -/
def SyncMessage.toJson (m : SyncMessage) : Json :=
  Json.obj [("key", Json.str m.key), ("value", Json.str m.value),
            ("timestamp", Json.num m.timestamp), ("machine_id", Json.str m.machine_id),
            ("deleted", Json.bool m.deleted)]

/-- The derived Deserialize impl of SyncMessage: all five fields must be
present with their declared types. -/
def SyncMessage.fromJson (j : Json) : Option SyncMessage :=
  match j.getField "key", j.getField "value", j.getField "timestamp",
        j.getField "machine_id", j.getField "deleted" with
  | some (Json.str k), some (Json.str v), some (Json.num t),
      some (Json.str m), some (Json.bool d) => some ⟨k, v, t, m, d⟩
  | _, _, _, _, _ => none

/-! ## Claim theorems -/

/-- C9: for every SyncMessage value, serializing it and then deserializing
the result yields the original message, identically on all five fields. -/
theorem sync_message_roundtrip (m : SyncMessage) :
    SyncMessage.fromJson (SyncMessage.toJson m) = some m := rfl

/-- C4: Election::should_become_server returns true iff this node's id
compares lexicographically greater than every collected candidate id; an
empty candidate list yields true. -/
theorem should_become_server_iff (my : String) (cands : List String) :
    (Election.should_become_server my cands = true ↔ ∀ c ∈ cands, c < my)
    ∧ Election.should_become_server my [] = true := by
  refine ⟨?_, rfl⟩
  cases cands with
  | nil => simp [Election.should_become_server, listMax?]
  | cons c cs =>
    simp [Election.should_become_server, listMax?, foldl_max_lt_iff]

/-- The broadcast loop keeps exactly the connections whose send
succeeded, in order. -/
theorem broadcastLoop_eq_filter (conns : List WsConn) :
    EmbeddedServer.broadcastLoop conns = conns.filter fun c => c.send_ok := by
  induction conns with
  | nil => rfl
  | cons c rest ih =>
    simp only [EmbeddedServer.broadcastLoop, List.filter_cons]
    cases h : c.send_ok <;> simp [h, ih]

/-- C10: broadcast returns success whenever serialization succeeds; every
connection whose send fails is evicted in place and the others are kept,
so no per-connection failure reaches the caller, even when every send
fails. -/
theorem broadcast_never_reports_send_failure (conns : List WsConn) :
    EmbeddedServer.broadcast true conns = Except.ok (conns.filter fun c => c.send_ok) := by
  simp [EmbeddedServer.broadcast, broadcastLoop_eq_filter]

/-- C8 counterexample: a Text frame whose body fails to parse makes
WebSocketClient::receive return the serialization error to its caller; it
is not dropped with receiving continuing as the claim states. -/
theorem receive_surfaces_parse_error :
    (WebSocketClient.receive [Frame.text (Except.error "invalid json")]).1
      = Except.error "invalid json"
    ∧ (WebSocketClient.receive [Frame.text (Except.error "invalid json")]).1
      ≠ Except.ok none :=
  ⟨rfl, fun h => Except.noConfusion h⟩

/-- C8 amended: a Serialization error from the IPC surface is answered
with Error("Invalid command: e") and the connection continues handling
subsequent requests unchanged; a Serialization error on an inbound wire
Text frame consumes that single frame and is returned as an error to the
caller of receive, the stream itself remaining open with the following
frames intact. -/
theorem serialization_error_policy :
    (∀ (now : Int) (e : String) (rest : List (Except String Command)) (st : DaemonState),
       handle_connection now (Except.error e :: rest) st
         = Response.error ("Invalid command: " ++ e) :: handle_connection now rest st)
    ∧ (∀ (e : String) (rest : List Frame),
       WebSocketClient.receive (Frame.text (Except.error e) :: rest)
         = (Except.error e, rest)) :=
  ⟨fun _ _ _ _ => rfl, fun _ _ => rfl⟩

/-- C2: EnvStorage::set commits timestamp = now() unchanged: two
successive set calls for the same key within the same sampled second
commit two records with the identical (timestamp, origin) pair
(100, "m"); no advance by one second happens. -/
theorem set_reuses_sampled_second :
    EnvStorage.set ([] : List Row) "K" "a" "m" 100 = [⟨"K", "a", 100, "m", false⟩]
    ∧ EnvStorage.set (EnvStorage.set [] "K" "a" "m" 100) "K" "b" "m" 100
        = [⟨"K", "b", 100, "m", false⟩] := by
  constructor <;> rfl

/-- C3: EnvStorage::delete is an UPDATE, so deleting a key with no prior
row affects zero rows: no tombstone is created, and nothing propagates
through get_changes_since; get afterwards returns none only because the
table is empty. -/
theorem delete_absent_key_noop :
    EnvStorage.delete ([] : List Row) "K" 100 = []
    ∧ EnvStorage.get (EnvStorage.delete [] "K" 100) "K" = none
    ∧ EnvStorage.get_changes_since (EnvStorage.delete [] "K" 100) 0 = [] := by
  refine ⟨rfl, rfl, rfl⟩

/-- C7: get_changes_since(t) returns exactly the rows with timestamp
strictly greater than t, ordered ascending by timestamp, tombstones
included; list_all omits tombstones. -/
theorem changes_since_exact_sorted_with_tombstones (tbl : List Row) (t : Int) :
    (∀ k v ts m d, ((k, v, ts, m, d) : ChangeRecord) ∈ EnvStorage.get_changes_since tbl t
        ↔ Row.mk k v ts m d ∈ tbl ∧ t < ts)
    ∧ List.Pairwise (fun a b : ChangeRecord => a.2.2.1 ≤ b.2.2.1)
        (EnvStorage.get_changes_since tbl t)
    ∧ (∀ k v ts m, ((k, v, ts, m) : String × String × Int × String) ∈ EnvStorage.list_all tbl
        ↔ Row.mk k v ts m false ∈ tbl) := by
  refine ⟨?_, ?_, ?_⟩
  · intro k v ts m d
    simp only [EnvStorage.get_changes_since, List.mem_map, List.mem_insertionSort,
      List.mem_filter]
    constructor
    · rintro ⟨r, ⟨hr, hts⟩, heq⟩
      obtain ⟨rk, rv, rts, rm, rd⟩ := r
      simp only [Prod.mk.injEq] at heq
      obtain ⟨rfl, rfl, rfl, rfl, rfl⟩ := heq
      exact ⟨hr, by simpa using hts⟩
    · rintro ⟨hmem, ht⟩
      exact ⟨⟨k, v, ts, m, d⟩, ⟨hmem, by simpa using ht⟩, rfl⟩
  · have hs : List.Sorted rowTsLE
        (List.insertionSort rowTsLE (tbl.filter fun r => decide (t < r.timestamp))) :=
      List.sorted_insertionSort rowTsLE _
    exact List.Pairwise.map _ (fun a b hab => hab) hs
  · intro k v ts m
    simp only [EnvStorage.list_all, List.mem_map, List.mem_insertionSort, List.mem_filter]
    constructor
    · rintro ⟨r, ⟨hr, hd⟩, heq⟩
      obtain ⟨rk, rv, rts, rm, rd⟩ := r
      simp only [Prod.mk.injEq] at heq
      obtain ⟨rfl, rfl, rfl, rfl⟩ := heq
      have hdf : rd = false := by simpa using hd
      subst hdf
      exact hr
    · intro hmem
      exact ⟨⟨k, v, ts, m, false⟩, ⟨hmem, by simp⟩, rfl⟩

/-- C1: apply_remote replaces the stored row iff the incoming
(timestamp, origin) is strictly greater under the lexicographic order,
and leaves the table unchanged otherwise. -/
theorem apply_remote_lww (tbl : List Row) (msg : SyncMessage) (r : Row)
    (hfind : tbl.find? (fun q => q.key == msg.key) = some r) :
    (lwwLt r.timestamp r.machineId msg.timestamp msg.machine_id →
      (EnvStorage.apply_remote tbl msg).find? (fun q => q.key == msg.key)
        = some ⟨msg.key, msg.value, msg.timestamp, msg.machine_id, msg.deleted⟩)
    ∧ (¬ lwwLt r.timestamp r.machineId msg.timestamp msg.machine_id →
      EnvStorage.apply_remote tbl msg = tbl) := by
  have hkey : (r.key == msg.key) = true := by
    have h2 := List.find?_some hfind
    simpa using h2
  have hpres : ∀ x : Row,
      ((if x.key == msg.key
          then (⟨msg.key, msg.value, msg.timestamp, msg.machine_id, msg.deleted⟩ : Row)
          else x).key == msg.key) = (x.key == msg.key) := by
    intro x
    by_cases hx : (x.key == msg.key) = true
    · simp [hx]
    · simp [hx]
  constructor
  · intro hlt
    unfold EnvStorage.apply_remote
    rw [hfind]
    show (if lwwLt r.timestamp r.machineId msg.timestamp msg.machine_id
            then tbl.map fun q =>
              if q.key == msg.key
                then (⟨msg.key, msg.value, msg.timestamp, msg.machine_id, msg.deleted⟩ : Row)
                else q
            else tbl).find? (fun q => q.key == msg.key) = _
    rw [if_pos hlt, find?_map_pres _ _ hpres, hfind]
    have hk : r.key = msg.key := by simpa using hkey
    simp [hk]
  · intro hnlt
    unfold EnvStorage.apply_remote
    rw [hfind]
    show (if lwwLt r.timestamp r.machineId msg.timestamp msg.machine_id
            then _ else tbl) = tbl
    rw [if_neg hnlt]

/-- C1 witness: a strictly newer incoming pair replaces the row, an older
one is a no-op, at concrete inputs. -/
theorem apply_remote_lww_witness :
    (EnvStorage.apply_remote [⟨"K", "a", 1, "m", false⟩] ⟨"K", "b", 2, "n", false⟩).find?
        (fun q => q.key == "K") = some ⟨"K", "b", 2, "n", false⟩
    ∧ EnvStorage.apply_remote [⟨"K", "a", 5, "m", false⟩] ⟨"K", "b", 2, "n", false⟩
        = [⟨"K", "a", 5, "m", false⟩] :=
  ⟨(apply_remote_lww [⟨"K", "a", 1, "m", false⟩] ⟨"K", "b", 2, "n", false⟩
      ⟨"K", "a", 1, "m", false⟩ rfl).1 (by decide),
   (apply_remote_lww [⟨"K", "a", 5, "m", false⟩] ⟨"K", "b", 2, "n", false⟩
      ⟨"K", "a", 5, "m", false⟩ rfl).2 (by decide)⟩

/-- A successful become_server_or_retry either installed the embedded
server or came from the retry continuation. -/
theorem become_ok_cases (node : EnvMeshNode) (env : RoundEnv)
    (next : Except String EnvMeshNode × List NetEvent) (trace tr : List NetEvent)
    (node' : EnvMeshNode)
    (h : become_server_or_retry node env next trace = (Except.ok node', tr)) :
    (∃ port, node' = { node with mode := NodeMode.lanServer port,
                                 server := some port, client := none })
    ∨ next.1 = Except.ok node' := by
  unfold become_server_or_retry at h
  by_cases h1 : node.config.server_mode = ServerMode.clientOnly
  · simp [h1] at h
  · simp only [h1, if_false] at h
    by_cases h2 : node.config.server_mode = ServerMode.serverPreferred
    · simp only [h2, if_true] at h
      cases h3 : env.server_start with
      | error e => simp [h3] at h
      | ok port =>
        cases h4 : env.announce with
        | error e => simp [h3, h4] at h
        | ok u =>
          simp only [h3, h4] at h
          injection h with ha hb
          injection ha with ha2
          exact Or.inl ⟨port, ha2.symm⟩
    · simp only [h2, if_false] at h
      cases h5 : env.election with
      | error e => simp [h5] at h
      | ok b =>
        cases b with
        | true =>
          cases h3 : env.server_start with
          | error e => simp [h5, h3] at h
          | ok port =>
            cases h4 : env.announce with
            | error e => simp [h5, h3, h4] at h
            | ok u =>
              simp only [h5, h3, h4] at h
              injection h with ha hb
              injection ha with ha2
              exact Or.inl ⟨port, ha2.symm⟩
        | false =>
          simp only [h5] at h
          injection h with ha hb
          exact Or.inr ha

/-- Every successful reconnect_with_failover ends in one of the three
role shapes, with the client and server fields set accordingly and the
other released. -/
theorem reconnect_ok_shape :
    ∀ (envs : List RoundEnv) (node node' : EnvMeshNode) (tr : List NetEvent),
      reconnect_with_failover node envs = (Except.ok node', tr) →
      node' = { node with mode := NodeMode.cloudClient,
                          client := some node.config.cloud_url, server := none }
      ∨ (∃ url, node' = { node with mode := NodeMode.lanClient url,
                                    client := some url, server := none })
      ∨ (∃ port, node' = { node with mode := NodeMode.lanServer port,
                                     server := some port, client := none }) := by
  intro envs
  induction envs with
  | nil =>
    intro node node' tr h
    simp [reconnect_with_failover] at h
  | cons env rest ih =>
    intro node node' tr h
    unfold reconnect_with_failover at h
    by_cases h1 : (node.config.enable_cloud && env.cloud_ok) = true
    · simp only [h1, if_true] at h
      injection h with ha hb
      injection ha with ha2
      exact Or.inl ha2.symm
    · simp only [h1, Bool.false_eq_true, if_false] at h
      by_cases h2 : node.config.enable_lan = true
      · simp only [h2, if_true] at h
        cases hd : env.discovery with
        | some info =>
          simp only [hd] at h
          by_cases h3 : env.lan_connect_ok = true
          · simp only [h3, if_true] at h
            injection h with ha hb
            injection ha with ha2
            exact Or.inr (Or.inl ⟨_, ha2.symm⟩)
          · simp only [h3, Bool.false_eq_true, if_false] at h
            rcases become_ok_cases _ _ _ _ _ _ h with ⟨port, hp⟩ | hnext
            · exact Or.inr (Or.inr ⟨port, hp⟩)
            · have hfull : reconnect_with_failover node rest
                  = (Except.ok node', (reconnect_with_failover node rest).2) := by
                rw [← hnext]
              exact ih node node' _ hfull
        | none =>
          simp only [hd] at h
          rcases become_ok_cases _ _ _ _ _ _ h with ⟨port, hp⟩ | hnext
          · exact Or.inr (Or.inr ⟨port, hp⟩)
          · have hfull : reconnect_with_failover node rest
                = (Except.ok node', (reconnect_with_failover node rest).2) := by
              rw [← hnext]
            exact ih node node' _ hfull
      · simp [h2] at h

/-- become_server_or_retry never reads the previously held client or
server fields. -/
theorem become_client_server_irrelevant (node : EnvMeshNode) (env : RoundEnv)
    (next : Except String EnvMeshNode × List NetEvent) (trace : List NetEvent)
    (c : Option String) (s : Option Nat) :
    become_server_or_retry { node with client := c, server := s } env next trace
      = become_server_or_retry node env next trace := rfl

/-- reconnect_with_failover never reads the previously held client or
server fields: its outcome is the same for any prior holdings, which are
overwritten (released) on every completed transition. -/
theorem reconnect_client_server_irrelevant (envs : List RoundEnv) (node : EnvMeshNode)
    (c : Option String) (s : Option Nat) :
    reconnect_with_failover { node with client := c, server := s } envs
      = reconnect_with_failover node envs := by
  induction envs with
  | nil => rfl
  | cons env rest ih =>
    unfold reconnect_with_failover
    rw [ih]
    rfl

/-- C5: after any completed role selection, client is Some and server is
None exactly in the client modes, server is Some and client is None
exactly in the LAN-server mode; and the result never depends on the
previously held client or server, which are overwritten on success. -/
theorem reconnect_role_exclusive (node node' : EnvMeshNode) (envs : List RoundEnv)
    (tr : List NetEvent)
    (h : reconnect_with_failover node envs = (Except.ok node', tr)) :
    roleOk node'
    ∧ ∀ (c : Option String) (s : Option Nat),
        reconnect_with_failover { node with client := c, server := s } envs
          = reconnect_with_failover node envs := by
  constructor
  · rcases reconnect_ok_shape envs node node' tr h with h1 | ⟨url, h1⟩ | ⟨port, h1⟩ <;>
      subst h1 <;> simp [roleOk]
  · intro c s
    exact reconnect_client_server_irrelevant envs node c s

/-- C5 witness: the invariant holds for the concrete node produced by a
successful cloud connection round. -/
theorem reconnect_role_exclusive_witness :
    roleOk { mode := NodeMode.cloudClient, client := some "ws://localhost:8080",
             server := none, config := NodeConfig.default, peer_id := "peer-1" } :=
  (reconnect_role_exclusive
    { mode := NodeMode.cloudClient, client := none, server := none,
      config := NodeConfig.default, peer_id := "peer-1" }
    { mode := NodeMode.cloudClient, client := some "ws://localhost:8080",
      server := none, config := NodeConfig.default, peer_id := "peer-1" }
    [{ cloud_ok := true, discovery := none, lan_connect_ok := false,
       election := Except.ok true, server_start := Except.ok 8765,
       announce := Except.ok () }]
    [NetEvent.cloudAttempt] rfl).1

/-- C6: with cloud enabled and the cloud connect attempt succeeding
within its timeout, role selection returns immediately as CloudClient
with the cloud wire client installed and no embedded server; the trace
shows the cloud attempt as the only network action: no LAN discovery, no
election, no server start. -/
theorem cloud_success_immediate (node : EnvMeshNode) (env : RoundEnv) (rest : List RoundEnv)
    (h1 : node.config.enable_cloud = true) (h2 : env.cloud_ok = true) :
    reconnect_with_failover node (env :: rest)
      = (Except.ok { node with mode := NodeMode.cloudClient,
                               client := some node.config.cloud_url, server := none },
         [NetEvent.cloudAttempt]) := by
  simp [reconnect_with_failover, h1, h2]

/-- C6 witness: the immediate CloudClient result at a concrete node and
environment. -/
theorem cloud_success_immediate_witness :
    reconnect_with_failover
        { mode := NodeMode.cloudClient, client := none, server := none,
          config := NodeConfig.default, peer_id := "peer-1" }
        [{ cloud_ok := true, discovery := some ⟨"10.0.0.2", 9000⟩, lan_connect_ok := true,
           election := Except.ok false, server_start := Except.ok 8765,
           announce := Except.ok () }]
      = (Except.ok { mode := NodeMode.cloudClient, client := some "ws://localhost:8080",
                     server := none, config := NodeConfig.default, peer_id := "peer-1" },
         [NetEvent.cloudAttempt]) :=
  cloud_success_immediate
    { mode := NodeMode.cloudClient, client := none, server := none,
      config := NodeConfig.default, peer_id := "peer-1" }
    { cloud_ok := true, discovery := some ⟨"10.0.0.2", 9000⟩, lan_connect_ok := true,
      election := Except.ok false, server_start := Except.ok 8765,
      announce := Except.ok () }
    [] rfl rfl

end EnvMesh
